import Mathlib

/-!
Verification of the orchestration core of `ai_diffusion/model.py` (krita-ai-diffusion).

The file shallowly embeds the data model and the operations of `model.py`:
pure decision logic is translated to Lean functions, the stateful parts
(`Model`, `LiveWorkspace`, the tracked job collection, the remote client and
the host document's timeline) become explicit state passing over a single
`ModelState` record, and Python `assert` statements become `Except`/`Option`
error results.  External collaborators (host document queries, the workflow
graph builders, settings) are supplied through an `Env` record of their
outputs, following the spec's component boundaries; the parts of the
repository that are referenced but not part of the given source
(`jobs.py`'s `JobQueue`) are modelled from the spec where noted.
-/

/-- Spatial bounds on the canvas: offset `(x, y)` plus extent, as in `image.py`'s
`Bounds` (external collaborator; only offset/extent arithmetic is used here). -/
structure Bounds where
  x : Int
  y : Int
  width : Nat
  height : Nat
deriving DecidableEq

/-- Extent of a region, `Bounds.extent` in the source. -/
structure Extent where
  width : Nat
  height : Nat
deriving DecidableEq

def Bounds.extent (b : Bounds) : Extent := ⟨b.width, b.height⟩

/-- Opaque image payload (external `image.py` type; only identity matters here). -/
structure Image where
  data : Nat
deriving DecidableEq

/-- Mask: opaque pixel data plus its (mutable, in Python) bounds. -/
structure Mask where
  bounds : Bounds
  data : Nat
deriving DecidableEq

/-- Conditioning payload from `workflow.py`: prompt, negative prompt, control
images, and the optional area-of-effect set by `Model.generate`. -/
structure Conditioning where
  prompt : String
  negative_prompt : String
  control : List Image
  area : Option Bounds
deriving DecidableEq

/-- Job kinds, as in `jobs.py` (referenced from `model.py`). -/
inductive JobKind where
  | diffusion
  | control_layer
  | upscaling
  | live_preview
deriving DecidableEq

/-- Job lifecycle states, as in `jobs.py` / spec 4.4. -/
inductive JobState where
  | queued
  | executing
  | finished
  | cancelled
deriving DecidableEq

/-- Control modes used by `model.py` (`ControlMode` from `workflow.py`). -/
inductive ControlMode where
  | reference
  | blur
  | pose
  | other
deriving DecidableEq

/-- The originating control descriptor carried by control-layer jobs. -/
structure ControlRec where
  mode : ControlMode
  layer_id : Option Nat
deriving DecidableEq

/-- Immutable per-job parameters recorded at submission (`jobs.add` arguments). -/
structure JobParams where
  prompt : String
  negative_prompt : String
  bounds : Bounds
  strength : ℚ
  seed : Int
deriving DecidableEq

/-- Modelled from the spec: the `Job` record of `jobs.py` (not part of the given
source): kind, opaque id from the remote worker, immutable request parameters,
result images, lifecycle state, optional control back-reference. -/
structure Job where
  id : String
  kind : JobKind
  state : JobState
  params : JobParams
  results : List Image
  control : Option ControlRec
deriving DecidableEq

/-- The four generation operations built by the external workflow builders
(`workflow.generate/refine/inpaint/refine_region`), with the arguments
`Model._generate` passes to them. -/
inductive Op where
  | generate (extent : Extent) (cond : Conditioning) (is_live : Bool)
  | refine (image : Image) (cond : Conditioning) (strength : ℚ) (is_live : Bool)
  | inpaint (image : Image) (mask : Mask) (cond : Conditioning)
  | refine_region (image : Image) (mask : Mask) (cond : Conditioning) (strength : ℚ)
      (is_live : Bool)
deriving DecidableEq

/-- Names of the four operations (spec 4.1 decision table). -/
inductive OpName where
  | generate
  | refine
  | inpaint
  | refine_region
deriving DecidableEq

def Op.name : Op → OpName
  | .generate _ _ _ => .generate
  | .refine _ _ _ _ => .refine
  | .inpaint _ _ _ => .inpaint
  | .refine_region _ _ _ _ _ => .refine_region

def Op.maskOf : Op → Option Mask
  | .generate _ _ _ => none
  | .refine _ _ _ _ => none
  | .inpaint _ m _ => some m
  | .refine_region _ m _ _ _ => some m

def Op.isLive : Op → Bool
  | .generate _ _ l => l
  | .refine _ _ _ l => l
  | .inpaint _ _ _ => false
  | .refine_region _ _ _ _ l => l

/-- A work item handed to the remote client: the built operation together with
the (mutable, in Python) seed field of the workflow job object. -/
structure WorkItem where
  op : Op
  seed : Int
deriving DecidableEq

/-- Event kinds streamed back by the remote worker (`client.py`). -/
inductive ClientEvent where
  | progress
  | finished
  | interrupted
  | error
deriving DecidableEq

/-- A message from the remote worker (`ClientMessage` in `client.py`). -/
structure ClientMessage where
  event : ClientEvent
  job_id : String
  progress : ℚ
  images : List Image
  result : Option Nat
  error : String
deriving DecidableEq

/-- Workspaces of the plugin (`model.py` lines 24-27). -/
inductive Workspace where
  | generation
  | upscaling
  | live
deriving DecidableEq

/-- Combined state of one `Model` and its `LiveWorkspace`, together with the
observable state of the external collaborators it drives: the tracked job
collection, the remote client (enqueued work, queue-clear and interrupt
requests), and the host document (validity flag, layers, animation timeline).
`job_finished_signals` records the `job_finished` signal emissions of the job
queue, `doc_commits` records each acknowledged keyframe commit
`(image, bounds, time)`, and `log` records client-log lines. -/
structure ModelState where
  workspace : Workspace
  prompt : String
  negative_prompt : String
  strength : ℚ
  batch_count : Nat
  seed : Int
  fixed_seed : Bool
  progress : ℚ
  error : String
  jobs : List Job
  selection : Option (String × Nat)
  job_finished_signals : List String
  log : List String
  layer : Option Nat
  live_is_active : Bool
  live_is_recording : Bool
  live_strength : ℚ
  live_result : Option (Image × Bounds)
  live_has_result : Bool
  live_keyframes : List (Image × Bounds)
  live_recording_layer : Option Nat
  doc_is_active : Bool
  doc_extent : Extent
  doc_current_time : Int
  doc_end_time : Int
  doc_commits : List (Image × Bounds × Int)
  doc_layers : List Nat
  doc_active_layer : Nat
  doc_next_layer : Nat
  client_next_id : Nat
  client_items : List WorkItem
  client_clear_queue_calls : Nat
  client_interrupt_calls : Nat
deriving DecidableEq

/-- Outputs of the external document / workflow / settings collaborators as
consumed by one operation (spec §6 interfaces): color-mode check, the masks
produced from the current selection, the computed image bounds, the captured
canvas image, control images, a fresh random seed, and the settings values
`batch_size` (the per-batch seed stride) and `auto_preview`. -/
structure Env where
  colorOk : Bool
  colorMsg : String
  genSelectionMask : Option Mask
  genImageBounds : Bounds
  genSelectionBounds : Option Bounds
  liveSelectionMask : Option Mask
  currentImage : Image
  controlImages : List Image
  randomSeed : Int
  batch_size : Int
  auto_preview : Bool
deriving DecidableEq

/-- Modelled from the spec: `JobQueue.find` of `jobs.py` — look up the tracked
job with the given remote id. -/
def jobsFind (jobs : List Job) (id : String) : Option Job :=
  jobs.find? (fun j => j.id = id)

/-- Modelled from the spec: point update of the tracked job with the given id
(the Python code mutates the job object in place). -/
def jobsUpdate (jobs : List Job) (id : String) (f : Job → Job) : List Job :=
  jobs.map (fun j => if j.id = id then f j else j)

/-- Modelled from the spec: `JobQueue.add` — append a new queued job record in
submission order, carrying the request's shared parameters and the used seed. -/
def jobsAdd (jobs : List Job) (kind : JobKind) (id : String) (pos neg : String)
    (bounds : Bounds) (strength : ℚ) (seed : Int) : List Job :=
  jobs ++ [⟨id, kind, .queued, ⟨pos, neg, bounds, strength, seed⟩, [], none⟩]

/-- Modelled from the spec: `JobQueue.remove` — drop the tracked job with the
given id. -/
def jobsRemove (jobs : List Job) (id : String) : List Job :=
  jobs.filter (fun j => j.id ≠ id)

/-- Remote client `enqueue` (spec §6): assign the next opaque id and record the
submitted work item. -/
def clientEnqueue (s : ModelState) (w : WorkItem) : String × ModelState :=
  (toString s.client_next_id,
   { s with client_next_id := s.client_next_id + 1,
            client_items := s.client_items ++ [w] })

/-- Mode selection of `Model._generate` (model.py lines 152-165): the
first-match-wins branching on image/mask presence, strength and the live flag,
with the source's `assert` statements turned into `Except.error`. -/
def Model.buildOp (bounds : Bounds) (cond : Conditioning) (strength : ℚ)
    (image : Option Image) (mask : Option Mask) (is_live : Bool) :
    Except String Op :=
  if image = none ∧ mask = none then
    if strength = 1 then .ok (.generate bounds.extent cond is_live)
    else .error "assert strength == 1"
  else if mask = none ∧ strength < 1 then
    match image with
    | some img => .ok (.refine img cond strength is_live)
    | none => .error "assert image is not None"
  else if strength = 1 ∧ is_live = false then
    match image with
    | some img =>
      match mask with
      | some m => .ok (.inpaint img m cond)
      | none => .error "assert image is not None and mask is not None"
    | none => .error "assert image is not None and mask is not None"
  else
    match image with
    | some img =>
      match mask with
      | some m => .ok (.refine_region img m cond strength is_live)
      | none => .error "assert image is not None and mask is not None"
    | none => .error "assert image is not None and mask is not None"

/-- Workflow construction of `Model._generate` (lines 152-165): the selected
operation together with the seed every builder is called with.  Called after
the mask-relative bounds swap, like the source. -/
def Model.buildWork (bounds : Bounds) (cond : Conditioning) (strength : ℚ)
    (image : Option Image) (mask : Option Mask) (seed : Int) (is_live : Bool) :
    Except String WorkItem :=
  (Model.buildOp bounds cond strength image mask is_live).map (fun op => ⟨op, seed⟩)

/-- Submission loop of `Model._generate` (lines 167-172): enqueue the shared
work item `count` times, record a job per acknowledged submission, and advance
the work item's seed by `settings.batch_size` (the stride) each iteration. -/
def Model.enqueueBatch (stride : Int) (kind : JobKind) (pos neg : String)
    (bounds : Bounds) (strength : ℚ) (seed : Int) :
    Nat → Nat → WorkItem → ModelState → ModelState
  | _, 0, _, s => s
  | i, n + 1, work, s =>
    let r := clientEnqueue s work
    let s := { r.2 with
      jobs := jobsAdd r.2.jobs kind r.1 pos neg bounds strength work.seed }
    let work := { work with seed := seed + ((i : Int) + 1) * stride }
    Model.enqueueBatch stride kind pos neg bounds strength seed (i + 1) n work s

/-- Progress reset of `Model._generate` (lines 142-143): reset the indicator
to zero only when no job is currently executing. -/
def Model.progressReset (s : ModelState) : ModelState :=
  if ¬ s.jobs.any (fun j => j.state = JobState.executing) then
    { s with progress := 0 }
  else s

/-- The mask rebased relative to the request bounds (lines 146-148): offset
subtracted, extent preserved. -/
def maskRel (bounds : Bounds) (m : Mask) : Mask :=
  { m with bounds := ⟨m.bounds.x - bounds.x, m.bounds.y - bounds.y,
                      m.bounds.width, m.bounds.height⟩ }

/-- Mask-relative bounds swap of `Model._generate` (lines 145-150): when a
mask is present, rebase its bounds relative to the request bounds for the
workflow builder, and use the mask's absolute bounds as the bounds the result
must be inserted at. -/
def Model.swapBounds (bounds : Bounds) (mask : Option Mask) : Bounds × Option Mask :=
  match mask with
  | some m => (m.bounds, some (maskRel bounds m))
  | none => (bounds, none)

/-- The body of `Model._generate` (lines 129-172): optional progress reset,
the mask-relative bounds swap, mode selection and workflow construction, then
the submission loop.  Returns the post-state and `some msg` when a source
assertion fired (in which case nothing was enqueued). -/
def Model.genDispatch (env : Env) (s : ModelState) (bounds : Bounds)
    (cond : Conditioning) (strength : ℚ) (image : Option Image)
    (mask : Option Mask) (seed : Int) (count : Nat) (is_live : Bool) :
    ModelState × Option String :=
  let s := Model.progressReset s
  let bm := Model.swapBounds bounds mask
  match Model.buildWork bm.1 cond strength image bm.2 seed is_live with
  | .error e => (s, some e)
  | .ok work =>
    let kind := if is_live then JobKind.live_preview else JobKind.diffusion
    (Model.enqueueBatch env.batch_size kind cond.prompt cond.negative_prompt
       bm.1 strength seed 0 count work s, none)

/-- Host query `document.find_last_keyframe(layer)` (spec §6): the time of the
layer's last existing keyframe; modelled as the largest committed keyframe
time, `0` for a fresh layer. -/
def findLastKeyframe (s : ModelState) : Int :=
  s.doc_commits.foldl (fun a c => max a c.2.2) 0

/-- One iteration of the drain loop of `LiveWorkspace._insert_frames_into_timeline`
(lines 547-552): write the frame's pixels at its bounds, trigger the host
"add keyframe" action, suspend until the keyframe at the current cursor time is
acknowledged (recorded as a commit), then advance the cursor by one. -/
def LiveWorkspace.commitFrame (s : ModelState) (frame : Image × Bounds) : ModelState :=
  { s with doc_commits := s.doc_commits ++ [(frame.1, frame.2, s.doc_current_time)],
           doc_current_time := s.doc_current_time + 1 }

/-- Source `LiveWorkspace._insert_frames_into_timeline` (lines 535-553): position the
cursor at the layer's last keyframe, drain the frames sequentially, then set
the timeline's end time to the final cursor position. -/
def LiveWorkspace.insertFramesIntoTimeline (s : ModelState)
    (frames : List (Image × Bounds)) : ModelState :=
  let s := { s with doc_current_time := findLastKeyframe s }
  let s := frames.foldl LiveWorkspace.commitFrame s
  { s with doc_end_time := s.doc_current_time }

/-- Source `LiveWorkspace._add_recording_layer` (lines 512-523): create the dedicated
animated recording layer if none exists yet, else reuse it. -/
def LiveWorkspace.addRecordingLayer (s : ModelState) : ModelState :=
  if s.live_recording_layer = none then
    { s with live_recording_layer := some s.doc_next_layer,
             doc_layers := s.doc_layers ++ [s.doc_next_layer],
             doc_next_layer := s.doc_next_layer + 1 }
  else s

/-- Source `LiveWorkspace._insert_frames` (lines 525-533): if any keyframes were
buffered, drain them onto the recording layer and clear the buffer. -/
def LiveWorkspace.insertFrames (s : ModelState) : ModelState :=
  if s.live_keyframes ≠ [] then
    let s := LiveWorkspace.addRecordingLayer s
    let s := LiveWorkspace.insertFramesIntoTimeline s s.live_keyframes
    { s with live_keyframes := [] }
  else s

/-- The `self.is_recording = False` write performed inside `toggle(False)`
(line 472).  At that point `is_active` has just been set to `False`, so the
nested `self.is_active = False` property write inside `toggle_record`
(line 477) is a no-op and is elided here. -/
def LiveWorkspace.toggleRecordOffInner (s : ModelState) : ModelState :=
  if s.live_is_recording then
    let s := { s with live_is_recording := false }
    LiveWorkspace.insertFrames s
  else s

/-- Source `LiveWorkspace.toggle` applied with value `False` — the deactivation path
of the `is_active` property setter (lines 465-472). -/
def LiveWorkspace.toggleOff (s : ModelState) : ModelState :=
  if s.live_is_active then
    LiveWorkspace.toggleRecordOffInner { s with live_is_active := false }
  else s

/-- Source `Model.report_error` (lines 260-262): store the message as the single
retained error and force the live session inactive. -/
def Model.report_error (s : ModelState) (message : String) : ModelState :=
  LiveWorkspace.toggleOff { s with error := message }

/-- Source `Model.clear_error` (lines 264-266). -/
def Model.clear_error (s : ModelState) : ModelState :=
  if s.error ≠ "" then { s with error := "" } else s

/-- The `_report_errors` boundary (lines 556-562) around a completed dispatch:
a raised error (here: a fired assertion) is converted into `report_error`. -/
def Model.runReportErrors (p : ModelState × Option String) : ModelState :=
  match p with
  | (s, none) => s
  | (s, some e) => Model.report_error s e

/-- Source `Model.generate_live` (lines 192-214): derive bounds from the live
selection mask (or the whole canvas), fetch the base image when a mask exists
or strength < 1, clear any stale error, then run `_generate` with
`count = 1, is_live = True` under the `_report_errors` boundary. -/
def Model.generate_live (env : Env) (s : ModelState) : ModelState :=
  let mask := env.liveSelectionMask
  let bounds := match mask with
    | none => Bounds.mk 0 0 s.doc_extent.width s.doc_extent.height
    | some m => m.bounds
  let image := if mask.isSome ∨ s.live_strength < 1 then some env.currentImage else none
  let cond : Conditioning := ⟨s.prompt, s.negative_prompt, env.controlImages, none⟩
  let s := Model.clear_error s
  Model.runReportErrors
    (Model.genDispatch env s bounds cond s.live_strength image mask s.seed 1 true)

/-- Source `LiveWorkspace.toggle` — the `is_active` property setter (lines 465-472):
activating submits one live request, deactivating forces recording off. -/
def LiveWorkspace.toggle (env : Env) (s : ModelState) (active : Bool) : ModelState :=
  if s.live_is_active ≠ active then
    let s := { s with live_is_active := active }
    if active then Model.generate_live env s
    else LiveWorkspace.toggleRecordOffInner s
  else s

/-- Source `LiveWorkspace.toggle_record` — the `is_recording` property setter
(lines 474-482): recording implies active; stopping drains buffered frames. -/
def LiveWorkspace.toggle_record (env : Env) (s : ModelState) (active : Bool) :
    ModelState :=
  if s.live_is_recording ≠ active then
    let s := { s with live_is_recording := active }
    let s := LiveWorkspace.toggle env s active
    if active then LiveWorkspace.addRecordingLayer s
    else LiveWorkspace.insertFrames s
  else s

/-- Source `LiveWorkspace.set_result` (lines 503-510): store the current preview
result and, while recording, append it to the keyframe buffer. -/
def LiveWorkspace.set_result (s : ModelState) (value : Image) (bounds : Bounds) :
    ModelState :=
  let s := { s with live_result := some (value, bounds), live_has_result := true }
  if s.live_is_recording then
    { s with live_keyframes := s.live_keyframes ++ [(value, bounds)] }
  else s

/-- Source `LiveWorkspace.handle_job_finished` (lines 484-490): for a finished
live-preview job take its first result (if any), re-evaluate the active flag
against host-document validity, and resubmit while still active. -/
def LiveWorkspace.handle_job_finished (env : Env) (s : ModelState) (job : Job) :
    ModelState :=
  if job.kind = JobKind.live_preview then
    let s := match job.results with
      | r :: _ => LiveWorkspace.set_result s r job.params.bounds
      | [] => s
    let s := LiveWorkspace.toggle env s (s.live_is_active && s.doc_is_active)
    if s.live_is_active then Model.generate_live env s else s
  else s

/-- Host `document.insert_layer` / `insert_vector_layer` (spec §6): create a
fresh layer handle. -/
def docInsertLayer (s : ModelState) : Nat × ModelState :=
  (s.doc_next_layer,
   { s with doc_layers := s.doc_layers ++ [s.doc_next_layer],
            doc_next_layer := s.doc_next_layer + 1 })

/-- Source `Model.add_control_layer` (lines 334-342): materialize a vector layer for
pose payloads, a raster layer when results exist, and fall back to the active
layer when execution was cached and no image was produced.  The source's
assertions become `Except.error`. -/
def Model.add_control_layer (s : ModelState) (job : Job) (result : Option Nat) :
    Except String (Nat × ModelState) :=
  match job.control with
  | some ctl =>
    if job.kind = JobKind.control_layer then
      if ctl.mode = ControlMode.pose ∧ result ≠ none then .ok (docInsertLayer s)
      else if 0 < job.results.length then .ok (docInsertLayer s)
      else .ok (s.doc_active_layer, s)
    else .error "assert job.kind is JobKind.control_layer and job.control"
  | none => .error "assert job.kind is JobKind.control_layer and job.control"

/-- Source `Model.add_upscale_layer` (lines 344-352): remove any preview layer,
resize the canvas to the job's target extent and insert the result.  Zero
results is a contract violation (`assert len(job.results) > 0`). -/
def Model.add_upscale_layer (s : ModelState) (job : Job) : Except String ModelState :=
  if job.kind = JobKind.upscaling then
    if 0 < job.results.length then
      let s := { s with layer := none }
      let s := { s with doc_extent := job.params.bounds.extent }
      .ok (docInsertLayer s).2
    else .error "assert len(job.results) > 0, Upscaling job did not produce an image"
  else .error "assert job.kind is JobKind.upscaling"

/-- Source `Model.handle_message` (lines 268-296): the event router.  Unknown job ids
are logged and ignored; `progress` drives queued → executing and the progress
indicator; `finished` attaches results, runs kind-specific post-processing,
marks the job finished (emitting the `job_finished` signal, to which
`LiveWorkspace.handle_job_finished` is connected) and evicts non-diffusion
jobs or auto-selects a preview; `interrupted`/`error` cancel the job.
Source assertions become `Except.error`. -/
def Model.handle_message (env : Env) (s : ModelState) (message : ClientMessage) :
    Except String ModelState :=
  match jobsFind s.jobs message.job_id with
  | none =>
    .ok { s with log := s.log ++
            ["Received message for unknown job: " ++ message.job_id] }
  | some job =>
    match message.event with
    | .progress =>
      let start := fun (j : Job) =>
        if j.state = JobState.queued then { j with state := JobState.executing } else j
      let s := { s with jobs := jobsUpdate s.jobs message.job_id start }
      .ok { s with progress := message.progress }
    | .finished =>
      let job := if message.images ≠ [] then { job with results := message.images } else job
      let setRes := fun (j : Job) => { j with results := message.images }
      let s := if message.images ≠ [] then
          { s with jobs := jobsUpdate s.jobs message.job_id setRes }
        else s
      let post : Except String (ModelState × Job) :=
        if job.kind = JobKind.control_layer then
          match Model.add_control_layer s job message.result with
          | .error e => .error e
          | .ok (layerId, s) =>
            let ctl := job.control.map (fun c => { c with layer_id := some layerId })
            let job := { job with control := ctl }
            .ok ({ s with jobs := jobsUpdate s.jobs message.job_id (fun _ => job) }, job)
        else if job.kind = JobKind.upscaling then
          match Model.add_upscale_layer s job with
          | .error e => .error e
          | .ok s => .ok (s, job)
        else .ok (s, job)
      match post with
      | .error e => .error e
      | .ok (s, job) =>
        let s := { s with progress := 1 }
        let setFin := fun (j : Job) => { j with state := JobState.finished }
        let s := { s with
          jobs := jobsUpdate s.jobs message.job_id setFin,
          job_finished_signals := s.job_finished_signals ++ [message.job_id] }
        let job := { job with state := JobState.finished }
        let s := LiveWorkspace.handle_job_finished env s job
        .ok (if job.kind ≠ JobKind.diffusion then
               { s with jobs := jobsRemove s.jobs message.job_id }
             else if env.auto_preview ∧ s.layer = none ∧ job.id ≠ "" then
               { s with selection := some (job.id, 0) }
             else s)
    | .interrupted =>
      let setCancel := fun (j : Job) => { j with state := JobState.cancelled }
      let s := { s with jobs := jobsUpdate s.jobs message.job_id setCancel }
      .ok { s with progress := 0 }
    | .error =>
      let setCancel := fun (j : Job) => { j with state := JobState.cancelled }
      let s := { s with jobs := jobsUpdate s.jobs message.job_id setCancel }
      .ok (Model.report_error s ("Server execution error: " ++ message.error))

/-- Source `Model.cancel` (lines 247-255): with `queued`, remove the queued jobs and
request a remote queue-clear once if there were any; with `active`, request an
interrupt if a job is executing. -/
def Model.cancel (s : ModelState) (active : Bool) (queued : Bool) : ModelState :=
  let s :=
    if queued then
      let toRemove := s.jobs.filter (fun j => j.state = JobState.queued)
      if 0 < toRemove.length then
        let s := { s with client_clear_queue_calls := s.client_clear_queue_calls + 1 }
        { s with jobs := s.jobs.filter (fun j => j.state ≠ JobState.queued) }
      else s
    else s
  if active ∧ s.jobs.any (fun j => j.state = JobState.executing) then
    { s with client_interrupt_calls := s.client_interrupt_calls + 1 }
  else s

/-- Source `Model.set_workspace` (lines 354-359): leaving the live workspace
deactivates the live session before the new value takes effect. -/
def Model.set_workspace (env : Env) (s : ModelState) (workspace : Workspace) :
    ModelState :=
  let s := if s.workspace = Workspace.live then LiveWorkspace.toggle env s false else s
  { s with workspace := workspace }

/-- Source `Model.generate` (lines 87-127): color-mode validation, request assembly
from the document/selection collaborator outputs in `Env`, error clearing,
then `_generate` under the `_report_errors` boundary. -/
def Model.generate (env : Env) (s : ModelState) : ModelState :=
  if env.colorOk = false ∧ env.colorMsg ≠ "" then Model.report_error s env.colorMsg
  else
    let mask := env.genSelectionMask
    let image_bounds := env.genImageBounds
    let image := if mask ≠ none ∨ s.strength < 1 then some env.currentImage else none
    let area := if s.strength = 1 then env.genSelectionBounds else none
    let cond : Conditioning := ⟨s.prompt, s.negative_prompt, env.controlImages, area⟩
    let seed := if s.fixed_seed then s.seed else env.randomSeed
    let s := Model.clear_error s
    Model.runReportErrors
      (Model.genDispatch env s image_bounds cond s.strength image mask seed
        s.batch_count false)

/-- Work items whose built operation carries the live flag — the live requests
observable at the remote client. -/
def liveItems (s : ModelState) : List WorkItem :=
  s.client_items.filter (fun w => w.op.isLive)

/-- The job record produced by one iteration of the submission loop. -/
def mkBatchJob (kind : JobKind) (pos neg : String) (bounds : Bounds)
    (strength : ℚ) (id : String) (seed : Int) : Job :=
  ⟨id, kind, .queued, ⟨pos, neg, bounds, strength, seed⟩, [], none⟩

/-- Specification-side description of the job records produced by a batch
(spec 4.3): consecutive client ids, seeds `base + i * stride`, shared
bounds/prompt/strength. -/
def batchRecords (kind : JobKind) (pos neg : String) (bounds : Bounds)
    (strength : ℚ) (seed stride : Int) : Nat → Nat → Nat → List Job
  | _, _, 0 => []
  | nextId, i, n + 1 =>
    mkBatchJob kind pos neg bounds strength (toString nextId) (seed + (i : Int) * stride) ::
      batchRecords kind pos neg bounds strength seed stride (nextId + 1) (i + 1) n

/-- Specification-side description of the work items submitted by a batch:
the shared work item with seed `base + i * stride` for the `i`-th submission. -/
def batchItems (work : WorkItem) (seed stride : Int) : Nat → Nat → List WorkItem
  | _, 0 => []
  | i, n + 1 =>
    { work with seed := seed + (i : Int) * stride } ::
      batchItems work seed stride (i + 1) n

/-- Specification-side description of a drained keyframe sequence (spec 4.6):
the buffered frames committed in capture order at consecutive times starting
at `start`. -/
def stampFrames (start : Int) : List (Image × Bounds) → List (Image × Bounds × Int)
  | [] => []
  | f :: rest => (f.1, f.2, start) :: stampFrames (start + 1) rest

/-- Sample bounds for concrete evaluations. -/
def exBounds : Bounds := ⟨0, 0, 64, 64⟩

/-- Sample image. -/
def exImage : Image := ⟨9⟩

/-- Sample mask whose bounds differ from `exBounds`. -/
def exMask : Mask := ⟨⟨8, 8, 16, 16⟩, 3⟩

/-- Sample conditioning. -/
def exCond : Conditioning := ⟨"p", "n", [], none⟩

/-- A concrete baseline model state. -/
def exState : ModelState := {
  workspace := .generation, prompt := "p", negative_prompt := "n",
  strength := 1, batch_count := 2, seed := 5, fixed_seed := true,
  progress := 0, error := "", jobs := [], selection := none,
  job_finished_signals := [], log := [], layer := none,
  live_is_active := false, live_is_recording := false, live_strength := 1,
  live_result := none, live_has_result := false, live_keyframes := [],
  live_recording_layer := none, doc_is_active := true,
  doc_extent := ⟨64, 64⟩, doc_current_time := 0, doc_end_time := 0,
  doc_commits := [], doc_layers := [0], doc_active_layer := 0,
  doc_next_layer := 1, client_next_id := 0, client_items := [],
  client_clear_queue_calls := 0, client_interrupt_calls := 0 }

/-- A concrete collaborator environment. -/
def exEnv : Env := {
  colorOk := true, colorMsg := "", genSelectionMask := none,
  genImageBounds := ⟨0, 0, 64, 64⟩, genSelectionBounds := none,
  liveSelectionMask := none, currentImage := ⟨0⟩, controlImages := [],
  randomSeed := 7, batch_size := 20, auto_preview := false }

/-- A message whose job id is tracked by no job. -/
def exMsgUnknown : ClientMessage := ⟨.finished, "zz", 0, [], none, ""⟩

/-- A tracked executing diffusion job. -/
def exJobDiff : Job := ⟨"4", .diffusion, .executing, ⟨"p", "n", exBounds, 1, 5⟩, [], none⟩

/-- State tracking one executing diffusion job. -/
def exStateDiff : ModelState := { exState with jobs := [exJobDiff] }

/-- A finished event with no images for the tracked diffusion job. -/
def exMsgFin : ClientMessage := ⟨.finished, "4", 0, [], none, ""⟩

/-- State tracking only an executing job — no job is queued. -/
def exStateExec : ModelState :=
  { exState with jobs := [⟨"2", .diffusion, .executing, ⟨"p", "n", exBounds, 1, 5⟩, [], none⟩] }

/-- State with two buffered keyframes. -/
def exStateKf : ModelState :=
  { exState with live_keyframes := [(⟨1⟩, ⟨0, 0, 4, 4⟩), (⟨2⟩, ⟨1, 1, 4, 4⟩)] }

/-- State in the live workspace with an active, recording session. -/
def exStateLiveWs : ModelState :=
  { exState with workspace := .live, live_is_active := true, live_is_recording := true }

/-- A finished live-preview job with one result. -/
def exJobLive : Job :=
  ⟨"0", .live_preview, .finished, ⟨"p", "n", exBounds, 1, 5⟩, [⟨42⟩], none⟩

theorem clear_error_eq (s : ModelState) : Model.clear_error s = { s with error := "" } := by
  unfold Model.clear_error
  split
  · rfl
  · next h =>
    have h0 : s.error = "" := by simpa using h
    cases s
    simp at h0
    simp [h0]

theorem batchItems_setSeed (work : WorkItem) (x seed stride : Int) :
    ∀ (n i : Nat), batchItems { work with seed := x } seed stride i n =
      batchItems work seed stride i n := by
  intro n
  induction n with
  | zero => intro i; simp [batchItems]
  | succ n ih => intro i; simp [batchItems, ih]

theorem enqueueBatch_eq (stride : Int) (kind : JobKind) (pos neg : String)
    (bounds : Bounds) (strength : ℚ) (seed : Int) :
    ∀ (n i : Nat) (work : WorkItem) (s : ModelState),
      work.seed = seed + (i : Int) * stride →
      Model.enqueueBatch stride kind pos neg bounds strength seed i n work s =
        { s with
          jobs := s.jobs ++
            batchRecords kind pos neg bounds strength seed stride s.client_next_id i n,
          client_items := s.client_items ++ batchItems work seed stride i n,
          client_next_id := s.client_next_id + n } := by
  intro n
  induction n with
  | zero =>
    intro i work s hw
    simp [Model.enqueueBatch, batchRecords, batchItems]
  | succ n ih =>
    intro i work s hw
    rw [Model.enqueueBatch]
    rw [ih (i + 1) _ _ (by push_cast; ring)]
    have hwork : { work with seed := seed + (i : Int) * stride } = work := by
      cases work; simp at hw; simp [hw]
    simp only [clientEnqueue, jobsAdd, batchRecords, batchItems, mkBatchJob,
      batchItems_setSeed, hw, hwork]
    simp [List.append_assoc, Nat.add_assoc, Nat.add_comm 1 n]

theorem batchRecords_length (kind : JobKind) (pos neg : String) (bounds : Bounds)
    (strength : ℚ) (seed stride : Int) :
    ∀ (n nextId i : Nat),
      (batchRecords kind pos neg bounds strength seed stride nextId i n).length = n := by
  intro n
  induction n with
  | zero => intro nextId i; simp [batchRecords]
  | succ n ih => intro nextId i; simp [batchRecords, ih]

theorem batchRecords_map_seed (kind : JobKind) (pos neg : String) (bounds : Bounds)
    (strength : ℚ) (seed stride : Int) :
    ∀ (n nextId i : Nat),
      (batchRecords kind pos neg bounds strength seed stride nextId i n).map
          (fun j => j.params.seed) =
        (List.range n).map (fun j => seed + ((i + j : Nat) : Int) * stride) := by
  intro n
  induction n with
  | zero => intro nextId i; simp [batchRecords]
  | succ n ih =>
    intro nextId i
    simp only [batchRecords, mkBatchJob, List.map_cons]
    rw [ih, List.range_succ_eq_map, List.map_cons, List.map_map]
    simp only [List.cons.injEq]
    constructor
    · simp
    · apply List.map_congr_left
      intro j _
      simp only [Function.comp]
      push_cast
      ring

theorem batchRecords_mem (kind : JobKind) (pos neg : String) (bounds : Bounds)
    (strength : ℚ) (seed stride : Int) :
    ∀ (n nextId i : Nat) (j : Job),
      j ∈ batchRecords kind pos neg bounds strength seed stride nextId i n →
      j.params.bounds = bounds ∧ j.params.prompt = pos ∧
        j.params.negative_prompt = neg ∧ j.params.strength = strength := by
  intro n
  induction n with
  | zero => intro nextId i j hj; simp [batchRecords] at hj
  | succ n ih =>
    intro nextId i j hj
    simp only [batchRecords, List.mem_cons] at hj
    rcases hj with hj | hj
    · subst hj; simp [mkBatchJob]
    · exact ih (nextId + 1) (i + 1) j hj

theorem batchItems_length (work : WorkItem) (seed stride : Int) :
    ∀ (n i : Nat), (batchItems work seed stride i n).length = n := by
  intro n
  induction n with
  | zero => intro i; simp [batchItems]
  | succ n ih => intro i; simp [batchItems, ih]

theorem batchItems_mem (work : WorkItem) (seed stride : Int) :
    ∀ (n i : Nat) (w : WorkItem), w ∈ batchItems work seed stride i n →
      w.op = work.op := by
  intro n
  induction n with
  | zero => intro i w hw; simp [batchItems] at hw
  | succ n ih =>
    intro i w hw
    simp only [batchItems, List.mem_cons] at hw
    rcases hw with hw | hw
    · subst hw; rfl
    · exact ih (i + 1) w hw

theorem buildWork_seed (bounds : Bounds) (cond : Conditioning) (strength : ℚ)
    (image : Option Image) (mask : Option Mask) (seed : Int) (is_live : Bool)
    (w : WorkItem)
    (h : Model.buildWork bounds cond strength image mask seed is_live = .ok w) :
    w.seed = seed := by
  unfold Model.buildWork at h
  cases hb : Model.buildOp bounds cond strength image mask is_live with
  | error e => rw [hb] at h; cases h
  | ok op => rw [hb] at h; cases h; rfl

/-- C1: the generation dispatch of `Model._generate` selects exactly one of the
four operations per the spec 4.1 table — no image and no mask at strength
exactly 1 builds `generate`; an image without mask at strength < 1 builds
`refine`; image and mask at strength exactly 1 while not live builds
`inpaint`; image and mask otherwise (strength < 1, or strength = 1 while
live) builds `refine_region` — and reaching the selector with a mask but no
image, or with no image and strength < 1, fails fast via assertion
(`Except.error`).  Strength is compared with exact equality, no epsilon. -/
theorem C1_mode_selection (bounds : Bounds) (cond : Conditioning) (strength : ℚ)
    (image : Option Image) (mask : Option Mask) (seed : Int) (is_live : Bool) :
    (image = none → mask = none → strength = 1 →
      ∃ w, Model.buildWork bounds cond strength image mask seed is_live = .ok w ∧
        w.op.name = OpName.generate) ∧
    (image ≠ none → mask = none → strength < 1 →
      ∃ w, Model.buildWork bounds cond strength image mask seed is_live = .ok w ∧
        w.op.name = OpName.refine) ∧
    (image ≠ none → mask ≠ none → strength = 1 → is_live = false →
      ∃ w, Model.buildWork bounds cond strength image mask seed is_live = .ok w ∧
        w.op.name = OpName.inpaint) ∧
    (image ≠ none → mask ≠ none → (strength < 1 ∨ (strength = 1 ∧ is_live = true)) →
      ∃ w, Model.buildWork bounds cond strength image mask seed is_live = .ok w ∧
        w.op.name = OpName.refine_region) ∧
    (mask ≠ none → image = none →
      ∃ e, Model.buildWork bounds cond strength image mask seed is_live = .error e) ∧
    (image = none → strength < 1 →
      ∃ e, Model.buildWork bounds cond strength image mask seed is_live = .error e) := by
  refine ⟨?_, ?_, ?_, ?_, ?_, ?_⟩
  · rintro rfl rfl h1
    refine ⟨⟨.generate bounds.extent cond is_live, seed⟩, ?_, rfl⟩
    simp [Model.buildWork, Model.buildOp, Except.map, h1]
  · rintro himg rfl hlt
    obtain ⟨img, rfl⟩ := Option.ne_none_iff_exists'.mp himg
    refine ⟨⟨.refine img cond strength is_live, seed⟩, ?_, rfl⟩
    simp [Model.buildWork, Model.buildOp, Except.map, hlt]
  · rintro himg hmask h1 hlive
    obtain ⟨img, rfl⟩ := Option.ne_none_iff_exists'.mp himg
    obtain ⟨m, rfl⟩ := Option.ne_none_iff_exists'.mp hmask
    refine ⟨⟨.inpaint img m cond, seed⟩, ?_, rfl⟩
    simp [Model.buildWork, Model.buildOp, Except.map, h1, hlive]
  · rintro himg hmask hcase
    obtain ⟨img, rfl⟩ := Option.ne_none_iff_exists'.mp himg
    obtain ⟨m, rfl⟩ := Option.ne_none_iff_exists'.mp hmask
    refine ⟨⟨.refine_region img m cond strength is_live, seed⟩, ?_, rfl⟩
    rcases hcase with hlt | ⟨h1, hlive⟩
    · have hne : strength ≠ 1 := ne_of_lt hlt
      simp [Model.buildWork, Model.buildOp, Except.map, hne, hlt]
    · simp [Model.buildWork, Model.buildOp, Except.map, hlive]
  · rintro hmask rfl
    obtain ⟨m, rfl⟩ := Option.ne_none_iff_exists'.mp hmask
    by_cases hc : strength = 1 ∧ is_live = false
    · exact ⟨"assert image is not None and mask is not None",
        by simp [Model.buildWork, Model.buildOp, Except.map, hc]⟩
    · exact ⟨"assert image is not None and mask is not None",
        by simp [Model.buildWork, Model.buildOp, Except.map, hc]⟩
  · rintro rfl hlt
    have hne : strength ≠ 1 := ne_of_lt hlt
    cases mask with
    | none =>
      exact ⟨"assert strength == 1",
        by simp [Model.buildWork, Model.buildOp, Except.map, hne]⟩
    | some m =>
      by_cases hc : strength = 1 ∧ is_live = false
      · exact absurd hc.1 hne
      · exact ⟨"assert image is not None and mask is not None",
          by simp [Model.buildWork, Model.buildOp, Except.map, hne, hc]⟩

/-- Concrete instances of every line of the C1 decision table. -/
theorem C1_mode_selection_witness :
    (∃ w, Model.buildWork exBounds exCond 1 none none 5 false = .ok w ∧
      w.op.name = OpName.generate) ∧
    (∃ w, Model.buildWork exBounds exCond (1/2) (some exImage) none 5 false = .ok w ∧
      w.op.name = OpName.refine) ∧
    (∃ w, Model.buildWork exBounds exCond 1 (some exImage) (some exMask) 5 false = .ok w ∧
      w.op.name = OpName.inpaint) ∧
    (∃ w, Model.buildWork exBounds exCond 1 (some exImage) (some exMask) 5 true = .ok w ∧
      w.op.name = OpName.refine_region) ∧
    (∃ e, Model.buildWork exBounds exCond 1 none (some exMask) 5 false = .error e) ∧
    (∃ e, Model.buildWork exBounds exCond (1/2) none none 5 false = .error e) :=
  ⟨(C1_mode_selection exBounds exCond 1 none none 5 false).1 rfl rfl rfl,
   (C1_mode_selection exBounds exCond (1/2) (some exImage) none 5 false).2.1
     (by simp) rfl (by norm_num),
   (C1_mode_selection exBounds exCond 1 (some exImage) (some exMask) 5 false).2.2.1
     (by simp) (by simp) rfl rfl,
   (C1_mode_selection exBounds exCond 1 (some exImage) (some exMask) 5 true).2.2.2.1
     (by simp) (by simp) (Or.inr ⟨rfl, rfl⟩),
   (C1_mode_selection exBounds exCond 1 none (some exMask) 5 false).2.2.2.2.1
     (by simp) rfl,
   (C1_mode_selection exBounds exCond (1/2) none none 5 false).2.2.2.2.2
     rfl (by norm_num)⟩

theorem progressReset_jobs (s : ModelState) :
    (Model.progressReset s).jobs = s.jobs := by
  unfold Model.progressReset; split <;> rfl

theorem progressReset_client_items (s : ModelState) :
    (Model.progressReset s).client_items = s.client_items := by
  unfold Model.progressReset; split <;> rfl

theorem progressReset_client_next_id (s : ModelState) :
    (Model.progressReset s).client_next_id = s.client_next_id := by
  unfold Model.progressReset; split <;> rfl

theorem genDispatch_ok_eq (env : Env) (s : ModelState) (bounds : Bounds)
    (cond : Conditioning) (strength : ℚ) (image : Option Image)
    (mask : Option Mask) (seed : Int) (count : Nat) (is_live : Bool)
    (work : WorkItem)
    (hbw : Model.buildWork (Model.swapBounds bounds mask).1 cond strength image
        (Model.swapBounds bounds mask).2 seed is_live = .ok work) :
    Model.genDispatch env s bounds cond strength image mask seed count is_live =
      ({ Model.progressReset s with
          jobs := s.jobs ++
            batchRecords (if is_live then JobKind.live_preview else JobKind.diffusion)
              cond.prompt cond.negative_prompt (Model.swapBounds bounds mask).1
              strength seed env.batch_size s.client_next_id 0 count,
          client_items := s.client_items ++ batchItems work seed env.batch_size 0 count,
          client_next_id := s.client_next_id + count }, none) := by
  have hseed : work.seed = seed + ((0 : Nat) : Int) * env.batch_size := by
    have := buildWork_seed _ _ _ _ _ _ _ _ hbw
    simp [this]
  simp only [Model.genDispatch, hbw]
  rw [enqueueBatch_eq _ _ _ _ _ _ _ count 0 work _ hseed]
  rw [progressReset_jobs, progressReset_client_items, progressReset_client_next_id]

/-- C2: for every request carrying a mask, the dispatch succeeds, every job
record's result-insertion bounds are the mask's original absolute bounds
(not the request bounds), and every submitted work item carries the mask
rebased relative to the request bounds (offset subtracted, extent kept). -/
theorem C2_mask_bounds_swap (env : Env) (s : ModelState) (bounds : Bounds)
    (cond : Conditioning) (strength : ℚ) (img : Image) (m : Mask) (seed : Int)
    (count : Nat) (is_live : Bool) :
    ∃ s', Model.genDispatch env s bounds cond strength (some img) (some m) seed
              count is_live = (s', none) ∧
      (∃ newJobs, s'.jobs = s.jobs ++ newJobs ∧ newJobs.length = count ∧
        ∀ j ∈ newJobs, j.params.bounds = m.bounds) ∧
      (∃ newItems, s'.client_items = s.client_items ++ newItems ∧
        newItems.length = count ∧
        ∀ w ∈ newItems, w.op.maskOf = some (maskRel bounds m)) := by
  have hswap : Model.swapBounds bounds (some m) =
      (m.bounds, some (maskRel bounds m)) := rfl
  have hbw : ∃ work, Model.buildWork (Model.swapBounds bounds (some m)).1 cond
      strength (some img) (Model.swapBounds bounds (some m)).2 seed is_live =
        .ok work ∧
      work.op.maskOf = some (maskRel bounds m) := by
    rw [hswap]
    by_cases hc : strength = 1 ∧ is_live = false
    · refine ⟨⟨.inpaint img _ cond, seed⟩, ?_, rfl⟩
      simp [Model.buildWork, Model.buildOp, Except.map, hc]
    · refine ⟨⟨.refine_region img _ cond strength is_live, seed⟩, ?_, rfl⟩
      simp [Model.buildWork, Model.buildOp, Except.map, hc]
  obtain ⟨work, hbw, hmaskOf⟩ := hbw
  rw [genDispatch_ok_eq env s bounds cond strength (some img) (some m) seed count
    is_live work hbw]
  refine ⟨_, rfl, ⟨_, rfl, batchRecords_length _ _ _ _ _ _ _ _ _ _, ?_⟩,
    ⟨_, rfl, batchItems_length _ _ _ _ _, ?_⟩⟩
  · intro j hj
    have := (batchRecords_mem _ _ _ _ _ _ _ _ _ _ j hj).1
    rw [this, hswap]
  · intro w hw
    have := batchItems_mem _ _ _ _ _ _ hw
    rw [this, hmaskOf]

/-- Concrete inpaint-style dispatch with a mask: succeeds with no assertion. -/
theorem C2_mask_bounds_swap_witness :
    ∃ s', Model.genDispatch exEnv exState ⟨2, 2, 64, 64⟩ exCond 1 (some exImage)
        (some exMask) 5 1 false = (s', none) := by
  obtain ⟨s', h, _, _⟩ :=
    C2_mask_bounds_swap exEnv exState ⟨2, 2, 64, 64⟩ exCond 1 exImage exMask 5 1 false
  exact ⟨s', h⟩

/-- C3: a dispatch with batch count N that passes the selector records exactly
N job records, appended in submission order, whose seeds form the arithmetic
progression `base, base + stride, base + 2*stride, ...` with the configured
`settings.batch_size` stride, and which all share the same bounds, prompt,
negative prompt, and strength. -/
theorem C3_batch_progression (env : Env) (s : ModelState) (bounds : Bounds)
    (cond : Conditioning) (strength : ℚ) (image : Option Image)
    (mask : Option Mask) (seed : Int) (count : Nat) (is_live : Bool)
    (hok : (Model.genDispatch env s bounds cond strength image mask seed count
        is_live).2 = none) :
    ∃ newJobs : List Job,
      (Model.genDispatch env s bounds cond strength image mask seed count
          is_live).1.jobs = s.jobs ++ newJobs ∧
      newJobs.length = count ∧
      newJobs.map (fun j => j.params.seed) =
        (List.range count).map (fun (i : Nat) => seed + (i : Int) * env.batch_size) ∧
      ∃ b : Bounds, ∀ j ∈ newJobs,
        j.params.bounds = b ∧ j.params.prompt = cond.prompt ∧
        j.params.negative_prompt = cond.negative_prompt ∧
        j.params.strength = strength := by
  cases hbw : Model.buildWork (Model.swapBounds bounds mask).1 cond strength image
      (Model.swapBounds bounds mask).2 seed is_live with
  | error e =>
    exfalso
    simp [Model.genDispatch, hbw] at hok
  | ok work =>
    rw [genDispatch_ok_eq env s bounds cond strength image mask seed count is_live
      work hbw]
    refine ⟨_, rfl, batchRecords_length _ _ _ _ _ _ _ _ _ _, ?_,
      ⟨(Model.swapBounds bounds mask).1, ?_⟩⟩
    · rw [batchRecords_map_seed]
      apply List.map_congr_left
      intro j _
      simp
    · intro j hj
      exact batchRecords_mem _ _ _ _ _ _ _ _ _ _ j hj

/-- Concrete batch of three text-to-image jobs: seeds 5, 25, 45 with
stride 20, shared parameters. -/
theorem C3_batch_progression_witness :
    ∃ newJobs : List Job,
      (Model.genDispatch exEnv exState exBounds exCond 1 none none 5 3
          false).1.jobs = exState.jobs ++ newJobs ∧
      newJobs.length = 3 ∧
      newJobs.map (fun j => j.params.seed) =
        (List.range 3).map (fun (i : Nat) => 5 + (i : Int) * exEnv.batch_size) ∧
      ∃ b : Bounds, ∀ j ∈ newJobs,
        j.params.bounds = b ∧ j.params.prompt = exCond.prompt ∧
        j.params.negative_prompt = exCond.negative_prompt ∧
        j.params.strength = 1 :=
  C3_batch_progression exEnv exState exBounds exCond 1 none none 5 3 false
    (by decide)

/-- C7 counterexample: cancelling queued jobs while only an executing job is
tracked removes nothing and requests no queue-clear at all — not "exactly
once, regardless of how many jobs were removed". -/
theorem C7_cancel_counterexample :
    ¬ ((Model.cancel exStateExec false true).client_clear_queue_calls =
        exStateExec.client_clear_queue_calls + 1) := by decide

/-- C7 (amended): cancelling with queued=true removes exactly the queued jobs
(executing and finished jobs are kept), and requests a remote queue-clear
exactly once if at least one job was queued, and not at all otherwise. -/
theorem C7_cancel_queued (s : ModelState) (active : Bool) :
    (Model.cancel s active true).jobs =
      s.jobs.filter (fun j => j.state ≠ JobState.queued) ∧
    (Model.cancel s active true).client_clear_queue_calls =
      s.client_clear_queue_calls +
        (if s.jobs.any (fun j => j.state = JobState.queued) then 1 else 0) := by
  have hiff : (0 < (s.jobs.filter (fun j => j.state = JobState.queued)).length) ↔
      (s.jobs.any (fun j => j.state = JobState.queued) = true) := by
    rw [List.length_pos_iff_exists_mem, List.any_eq_true]
    constructor
    · rintro ⟨j, hj⟩
      have hm := List.mem_filter.mp hj
      exact ⟨j, hm.1, hm.2⟩
    · rintro ⟨j, hj, hp⟩
      exact ⟨j, List.mem_filter.mpr ⟨hj, hp⟩⟩
  by_cases hq : s.jobs.any (fun j => j.state = JobState.queued) = true
  · have hlen := hiff.mpr hq
    constructor
    · unfold Model.cancel
      rw [if_pos rfl, if_pos hlen]
      dsimp only
      split <;> rfl
    · unfold Model.cancel
      rw [if_pos rfl, if_pos hlen, if_pos hq]
      dsimp only
      split <;> rfl
  · have hlen : ¬ 0 < (s.jobs.filter (fun j => j.state = JobState.queued)).length :=
      fun hc => hq (hiff.mp hc)
    have hall : ∀ j ∈ s.jobs, j.state ≠ JobState.queued := by
      intro j hj heq
      apply hq
      rw [List.any_eq_true]
      exact ⟨j, hj, by simp [heq]⟩
    have hself : s.jobs.filter (fun j => j.state ≠ JobState.queued) = s.jobs := by
      apply List.filter_eq_self.mpr
      intro j hj
      simpa using hall j hj
    constructor
    · unfold Model.cancel
      rw [if_pos rfl, if_neg hlen, hself]
      dsimp only
      split <;> rfl
    · unfold Model.cancel
      rw [if_pos rfl, if_neg hlen, if_neg hq]
      dsimp only
      split <;> simp

theorem commitFrames_eq (frames : List (Image × Bounds)) :
    ∀ s : ModelState, frames.foldl LiveWorkspace.commitFrame s =
      { s with doc_commits := s.doc_commits ++ stampFrames s.doc_current_time frames,
               doc_current_time := s.doc_current_time + frames.length } := by
  induction frames with
  | nil => intro s; simp [stampFrames]
  | cons f rest ih =>
    intro s
    rw [List.foldl_cons, ih]
    simp [LiveWorkspace.commitFrame, stampFrames, ModelState.mk.injEq,
      List.append_assoc]
    omega

theorem insertFramesIntoTimeline_eq (s : ModelState) (frames : List (Image × Bounds)) :
    LiveWorkspace.insertFramesIntoTimeline s frames =
      { s with doc_commits := s.doc_commits ++
                 stampFrames (findLastKeyframe s) frames,
               doc_current_time := findLastKeyframe s + frames.length,
               doc_end_time := findLastKeyframe s + frames.length } := by
  unfold LiveWorkspace.insertFramesIntoTimeline
  dsimp only
  rw [commitFrames_eq]

theorem addRecordingLayer_fields (s : ModelState) :
    (LiveWorkspace.addRecordingLayer s).doc_commits = s.doc_commits ∧
    (LiveWorkspace.addRecordingLayer s).doc_current_time = s.doc_current_time ∧
    (LiveWorkspace.addRecordingLayer s).live_keyframes = s.live_keyframes ∧
    (LiveWorkspace.addRecordingLayer s).client_items = s.client_items ∧
    (LiveWorkspace.addRecordingLayer s).live_is_active = s.live_is_active ∧
    (LiveWorkspace.addRecordingLayer s).live_is_recording = s.live_is_recording ∧
    (LiveWorkspace.addRecordingLayer s).live_strength = s.live_strength ∧
    (LiveWorkspace.addRecordingLayer s).live_result = s.live_result ∧
    (LiveWorkspace.addRecordingLayer s).doc_is_active = s.doc_is_active ∧
    (LiveWorkspace.addRecordingLayer s).error = s.error ∧
    (LiveWorkspace.addRecordingLayer s).workspace = s.workspace ∧
    (LiveWorkspace.addRecordingLayer s).jobs = s.jobs ∧
    (LiveWorkspace.addRecordingLayer s).job_finished_signals =
      s.job_finished_signals := by
  unfold LiveWorkspace.addRecordingLayer
  split <;> simp

theorem insertFrames_eq (s : ModelState) :
    LiveWorkspace.insertFrames s =
      if s.live_keyframes = [] then s
      else
        { LiveWorkspace.addRecordingLayer s with
            doc_commits := s.doc_commits ++
              stampFrames (findLastKeyframe s) s.live_keyframes,
            doc_current_time := findLastKeyframe s + s.live_keyframes.length,
            doc_end_time := findLastKeyframe s + s.live_keyframes.length,
            live_keyframes := [] } := by
  unfold LiveWorkspace.insertFrames
  by_cases h : s.live_keyframes = []
  · rw [if_neg (by simp [h]), if_pos h]
  · rw [if_pos h, if_neg h]
    dsimp only
    have ha := addRecordingLayer_fields s
    rw [ha.2.2.1, insertFramesIntoTimeline_eq]
    have hfind : findLastKeyframe (LiveWorkspace.addRecordingLayer s) =
        findLastKeyframe s := by
      unfold findLastKeyframe
      rw [ha.1]
    rw [hfind, ha.1]

/-- C8: draining leaves the keyframe buffer empty whether or not any draining
was performed, and a non-empty buffer is committed strictly in capture order
at consecutive timeline times, the cursor advancing by exactly one per
acknowledged frame and the timeline's end time being set to the final cursor
position. -/
theorem C8_recording_drain (s : ModelState) :
    (LiveWorkspace.insertFrames s).live_keyframes = [] ∧
    (s.live_keyframes ≠ [] →
      ∃ start : Int,
        (LiveWorkspace.insertFrames s).doc_commits =
          s.doc_commits ++ stampFrames start s.live_keyframes ∧
        (LiveWorkspace.insertFrames s).doc_current_time =
          start + s.live_keyframes.length ∧
        (LiveWorkspace.insertFrames s).doc_end_time =
          start + s.live_keyframes.length) := by
  rw [insertFrames_eq]
  by_cases h : s.live_keyframes = []
  · simp [h]
  · rw [if_neg h]
    exact ⟨rfl, fun _ => ⟨findLastKeyframe s, rfl, rfl, rfl⟩⟩

/-- Concrete drain of a two-frame buffer. -/
theorem C8_recording_drain_witness :
    ∃ start : Int,
      (LiveWorkspace.insertFrames exStateKf).doc_commits =
        exStateKf.doc_commits ++ stampFrames start exStateKf.live_keyframes ∧
      (LiveWorkspace.insertFrames exStateKf).doc_current_time =
        start + exStateKf.live_keyframes.length ∧
      (LiveWorkspace.insertFrames exStateKf).doc_end_time =
        start + exStateKf.live_keyframes.length :=
  (C8_recording_drain exStateKf).2 (by decide)

theorem insertFrames_fields (s : ModelState) :
    (LiveWorkspace.insertFrames s).client_items = s.client_items ∧
    (LiveWorkspace.insertFrames s).live_is_active = s.live_is_active ∧
    (LiveWorkspace.insertFrames s).live_strength = s.live_strength ∧
    (LiveWorkspace.insertFrames s).live_result = s.live_result ∧
    (LiveWorkspace.insertFrames s).doc_is_active = s.doc_is_active ∧
    (LiveWorkspace.insertFrames s).error = s.error ∧
    (LiveWorkspace.insertFrames s).workspace = s.workspace ∧
    (LiveWorkspace.insertFrames s).jobs = s.jobs ∧
    (LiveWorkspace.insertFrames s).job_finished_signals = s.job_finished_signals ∧
    (LiveWorkspace.insertFrames s).client_next_id = s.client_next_id ∧
    (LiveWorkspace.insertFrames s).live_is_recording = s.live_is_recording := by
  rw [insertFrames_eq]
  split
  · simp
  · have ha := addRecordingLayer_fields s
    obtain ⟨h1, h2, h3, h4, h5, h6, h7, h8, h9, h10, h11, h12, h13⟩ := ha
    unfold LiveWorkspace.addRecordingLayer at *
    split at h4 <;> simp_all

theorem toggleRecordOffInner_fields (s : ModelState) :
    (LiveWorkspace.toggleRecordOffInner s).live_is_recording = false ∧
    (LiveWorkspace.toggleRecordOffInner s).client_items = s.client_items ∧
    (LiveWorkspace.toggleRecordOffInner s).live_is_active = s.live_is_active ∧
    (LiveWorkspace.toggleRecordOffInner s).live_strength = s.live_strength ∧
    (LiveWorkspace.toggleRecordOffInner s).live_result = s.live_result ∧
    (LiveWorkspace.toggleRecordOffInner s).doc_is_active = s.doc_is_active ∧
    (LiveWorkspace.toggleRecordOffInner s).error = s.error ∧
    (LiveWorkspace.toggleRecordOffInner s).workspace = s.workspace ∧
    (LiveWorkspace.toggleRecordOffInner s).jobs = s.jobs ∧
    (LiveWorkspace.toggleRecordOffInner s).job_finished_signals =
      s.job_finished_signals ∧
    (LiveWorkspace.toggleRecordOffInner s).client_next_id = s.client_next_id := by
  unfold LiveWorkspace.toggleRecordOffInner
  split
  · have hi := insertFrames_fields { s with live_is_recording := false }
    obtain ⟨h1, h2, h3, h4, h5, h6, h7, h8, h9, h10, h11⟩ := hi
    simp_all
  · next h =>
    have : s.live_is_recording = false := by simpa using h
    simp [this]

theorem toggleOff_fields (s : ModelState) :
    (LiveWorkspace.toggleOff s).live_is_active = false ∧
    (LiveWorkspace.toggleOff s).client_items = s.client_items ∧
    (LiveWorkspace.toggleOff s).live_strength = s.live_strength ∧
    (LiveWorkspace.toggleOff s).live_result = s.live_result ∧
    (LiveWorkspace.toggleOff s).doc_is_active = s.doc_is_active ∧
    (LiveWorkspace.toggleOff s).error = s.error ∧
    (LiveWorkspace.toggleOff s).workspace = s.workspace ∧
    (LiveWorkspace.toggleOff s).jobs = s.jobs ∧
    (LiveWorkspace.toggleOff s).job_finished_signals = s.job_finished_signals ∧
    (LiveWorkspace.toggleOff s).client_next_id = s.client_next_id := by
  unfold LiveWorkspace.toggleOff
  split
  · have hi := toggleRecordOffInner_fields { s with live_is_active := false }
    obtain ⟨h1, h2, h3, h4, h5, h6, h7, h8, h9, h10, h11⟩ := hi
    simp_all
  · next h =>
    have : s.live_is_active = false := by simpa using h
    simp [this]

theorem set_result_fields (s : ModelState) (v : Image) (b : Bounds) :
    (LiveWorkspace.set_result s v b).live_result = some (v, b) ∧
    (LiveWorkspace.set_result s v b).client_items = s.client_items ∧
    (LiveWorkspace.set_result s v b).live_is_active = s.live_is_active ∧
    (LiveWorkspace.set_result s v b).live_is_recording = s.live_is_recording ∧
    (LiveWorkspace.set_result s v b).live_strength = s.live_strength ∧
    (LiveWorkspace.set_result s v b).doc_is_active = s.doc_is_active ∧
    (LiveWorkspace.set_result s v b).error = s.error ∧
    (LiveWorkspace.set_result s v b).jobs = s.jobs ∧
    (LiveWorkspace.set_result s v b).job_finished_signals = s.job_finished_signals ∧
    (LiveWorkspace.set_result s v b).client_next_id = s.client_next_id := by
  unfold LiveWorkspace.set_result
  dsimp only
  split <;> simp

theorem progressReset_fields (s : ModelState) :
    (Model.progressReset s).live_is_active = s.live_is_active ∧
    (Model.progressReset s).live_is_recording = s.live_is_recording ∧
    (Model.progressReset s).live_strength = s.live_strength ∧
    (Model.progressReset s).live_result = s.live_result ∧
    (Model.progressReset s).doc_is_active = s.doc_is_active ∧
    (Model.progressReset s).error = s.error ∧
    (Model.progressReset s).job_finished_signals = s.job_finished_signals ∧
    (Model.progressReset s).log = s.log ∧
    (Model.progressReset s).workspace = s.workspace := by
  unfold Model.progressReset
  split <;> simp

theorem generate_live_eq (env : Env) (s : ModelState)
    (hstr : s.live_strength ≤ 1) :
    ∃ (w : WorkItem) (jb : Job), w.op.isLive = true ∧
      Model.generate_live env s =
        { Model.progressReset { s with error := "" } with
            jobs := s.jobs ++ [jb],
            client_items := s.client_items ++ [w],
            client_next_id := s.client_next_id + 1 } := by
  cases hm : env.liveSelectionMask with
  | none =>
    by_cases hlt : s.live_strength < 1
    · refine ⟨⟨.refine env.currentImage
          ⟨s.prompt, s.negative_prompt, env.controlImages, none⟩
          s.live_strength true, s.seed⟩,
        mkBatchJob JobKind.live_preview s.prompt s.negative_prompt
          (Bounds.mk 0 0 s.doc_extent.width s.doc_extent.height)
          s.live_strength (toString s.client_next_id) s.seed, rfl, ?_⟩
      have hbw : Model.buildWork
          (Model.swapBounds
            (Bounds.mk 0 0 s.doc_extent.width s.doc_extent.height) none).1
          ⟨s.prompt, s.negative_prompt, env.controlImages, none⟩
          s.live_strength (some env.currentImage)
          (Model.swapBounds
            (Bounds.mk 0 0 s.doc_extent.width s.doc_extent.height) none).2
          s.seed true =
          .ok ⟨.refine env.currentImage
            ⟨s.prompt, s.negative_prompt, env.controlImages, none⟩
            s.live_strength true, s.seed⟩ := by
        simp [Model.swapBounds, Model.buildWork, Model.buildOp, Except.map, hlt]
      unfold Model.generate_live
      rw [hm]
      dsimp only
      rw [clear_error_eq, if_pos (Or.inr hlt)]
      rw [genDispatch_ok_eq _ _ _ _ _ _ _ _ _ _ _ hbw]
      dsimp only [Model.runReportErrors]
      simp [batchRecords, batchItems, mkBatchJob, Model.swapBounds]
    · have h1 : s.live_strength = 1 := le_antisymm hstr (not_lt.mp hlt)
      refine ⟨⟨.generate
          (Bounds.mk 0 0 s.doc_extent.width s.doc_extent.height).extent
          ⟨s.prompt, s.negative_prompt, env.controlImages, none⟩ true, s.seed⟩,
        mkBatchJob JobKind.live_preview s.prompt s.negative_prompt
          (Bounds.mk 0 0 s.doc_extent.width s.doc_extent.height)
          s.live_strength (toString s.client_next_id) s.seed, rfl, ?_⟩
      have hbw : Model.buildWork
          (Model.swapBounds
            (Bounds.mk 0 0 s.doc_extent.width s.doc_extent.height) none).1
          ⟨s.prompt, s.negative_prompt, env.controlImages, none⟩
          s.live_strength none
          (Model.swapBounds
            (Bounds.mk 0 0 s.doc_extent.width s.doc_extent.height) none).2
          s.seed true =
          .ok ⟨.generate
            (Bounds.mk 0 0 s.doc_extent.width s.doc_extent.height).extent
            ⟨s.prompt, s.negative_prompt, env.controlImages, none⟩ true,
            s.seed⟩ := by
        simp [Model.swapBounds, Model.buildWork, Model.buildOp, Except.map, h1]
      unfold Model.generate_live
      rw [hm]
      dsimp only
      rw [clear_error_eq, if_neg (by simp [hlt])]
      rw [genDispatch_ok_eq _ _ _ _ _ _ _ _ _ _ _ hbw]
      dsimp only [Model.runReportErrors]
      simp [batchRecords, batchItems, mkBatchJob, Model.swapBounds]
  | some m =>
    refine ⟨⟨.refine_region env.currentImage (maskRel m.bounds m)
        ⟨s.prompt, s.negative_prompt, env.controlImages, none⟩
        s.live_strength true, s.seed⟩,
      mkBatchJob JobKind.live_preview s.prompt s.negative_prompt m.bounds
        s.live_strength (toString s.client_next_id) s.seed, rfl, ?_⟩
    have hbw : Model.buildWork (Model.swapBounds m.bounds (some m)).1
        ⟨s.prompt, s.negative_prompt, env.controlImages, none⟩
        s.live_strength (some env.currentImage)
        (Model.swapBounds m.bounds (some m)).2 s.seed true =
        .ok ⟨.refine_region env.currentImage (maskRel m.bounds m)
          ⟨s.prompt, s.negative_prompt, env.controlImages, none⟩
          s.live_strength true, s.seed⟩ := by
      simp [Model.swapBounds, Model.buildWork, Model.buildOp, Except.map]
    unfold Model.generate_live
    rw [hm]
    dsimp only
    rw [clear_error_eq,
      if_pos (show (some m).isSome = true ∨ s.live_strength < 1 from Or.inl rfl)]
    rw [genDispatch_ok_eq _ _ _ _ _ _ _ _ _ _ _ hbw]
    dsimp only [Model.runReportErrors]
    simp [batchRecords, batchItems, mkBatchJob, Model.swapBounds]

theorem toggle_false_eq (env : Env) (s : ModelState) :
    LiveWorkspace.toggle env s false = LiveWorkspace.toggleOff s := by
  unfold LiveWorkspace.toggle LiveWorkspace.toggleOff
  cases h : s.live_is_active <;> simp [h]

theorem toggle_true_eq (env : Env) (s : ModelState) (h : s.live_is_active = false) :
    LiveWorkspace.toggle env s true =
      Model.generate_live env { s with live_is_active := true } := by
  unfold LiveWorkspace.toggle
  rw [h]
  simp

theorem toggle_true_noop (env : Env) (s : ModelState) (h : s.live_is_active = true) :
    LiveWorkspace.toggle env s true = s := by
  unfold LiveWorkspace.toggle
  rw [h]
  simp

theorem enqueueBatch_signals (stride : Int) (kind : JobKind) (pos neg : String)
    (bounds : Bounds) (strength : ℚ) (seed : Int) :
    ∀ (n i : Nat) (work : WorkItem) (t : ModelState),
      (Model.enqueueBatch stride kind pos neg bounds strength seed i n work
        t).job_finished_signals = t.job_finished_signals := by
  intro n
  induction n with
  | zero => intro i work t; simp [Model.enqueueBatch]
  | succ n ih =>
    intro i work t
    rw [Model.enqueueBatch]
    rw [ih]
    rfl

theorem runReportErrors_signals (p : ModelState × Option String) :
    (Model.runReportErrors p).job_finished_signals = p.1.job_finished_signals := by
  rcases p with ⟨t, oe⟩
  cases oe with
  | none => rfl
  | some e =>
    have h := toggleOff_fields { t with error := e }
    exact h.2.2.2.2.2.2.2.2.1

theorem genDispatch_signals (env : Env) (s : ModelState) (bounds : Bounds)
    (cond : Conditioning) (strength : ℚ) (image : Option Image)
    (mask : Option Mask) (seed : Int) (count : Nat) (is_live : Bool) :
    (Model.genDispatch env s bounds cond strength image mask seed count
      is_live).1.job_finished_signals = s.job_finished_signals := by
  unfold Model.genDispatch
  dsimp only
  cases hbw : Model.buildWork (Model.swapBounds bounds mask).1 cond strength image
      (Model.swapBounds bounds mask).2 seed is_live with
  | error e =>
    dsimp only
    exact (progressReset_fields s).2.2.2.2.2.2.1
  | ok work =>
    dsimp only
    rw [enqueueBatch_signals]
    exact (progressReset_fields s).2.2.2.2.2.2.1

theorem generate_live_signals (env : Env) (s : ModelState) :
    (Model.generate_live env s).job_finished_signals = s.job_finished_signals := by
  unfold Model.generate_live
  dsimp only
  rw [clear_error_eq, runReportErrors_signals, genDispatch_signals]

theorem toggle_signals (env : Env) (s : ModelState) (active : Bool) :
    (LiveWorkspace.toggle env s active).job_finished_signals =
      s.job_finished_signals := by
  unfold LiveWorkspace.toggle
  split
  · split
    · rw [generate_live_signals]
    · exact (toggleRecordOffInner_fields
        { s with live_is_active := active }).2.2.2.2.2.2.2.2.2.1
  · rfl

theorem handle_job_finished_signals (env : Env) (s : ModelState) (job : Job) :
    (LiveWorkspace.handle_job_finished env s job).job_finished_signals =
      s.job_finished_signals := by
  unfold LiveWorkspace.handle_job_finished
  split
  · dsimp only
    split
    · rw [generate_live_signals, toggle_signals]
      cases hr : job.results with
      | nil => rfl
      | cons r rest =>
        exact (set_result_fields s r job.params.bounds).2.2.2.2.2.2.2.2.1
    · rw [toggle_signals]
      cases hr : job.results with
      | nil => rfl
      | cons r rest =>
        exact (set_result_fields s r job.params.bounds).2.2.2.2.2.2.2.2.1
  · rfl

theorem liveItems_congr (s1 s2 : ModelState)
    (hc : s2.client_items = s1.client_items) : liveItems s2 = liveItems s1 := by
  unfold liveItems
  rw [hc]

theorem liveItems_length_append_live (s1 s2 : ModelState) (w : WorkItem)
    (hc : s2.client_items = s1.client_items ++ [w]) (hw : w.op.isLive = true) :
    (liveItems s2).length = (liveItems s1).length + 1 := by
  unfold liveItems
  rw [hc, List.filter_append]
  simp [hw]

theorem handle_job_finished_live (env : Env) (s : ModelState) (job : Job)
    (hstr : s.live_strength ≤ 1) (hk : job.kind = JobKind.live_preview) :
    (liveItems (LiveWorkspace.handle_job_finished env s job)).length =
      (liveItems s).length +
        (if s.live_is_active = true ∧ s.doc_is_active = true then 1 else 0) ∧
    (LiveWorkspace.handle_job_finished env s job).live_result =
      (match job.results with
       | r :: _ => some (r, job.params.bounds)
       | [] => s.live_result) ∧
    (LiveWorkspace.handle_job_finished env s job).live_is_active =
      (s.live_is_active && s.doc_is_active) := by
  have main : ∀ S1 : ModelState,
      S1.client_items = s.client_items →
      S1.live_is_active = s.live_is_active →
      S1.live_strength = s.live_strength →
      S1.doc_is_active = s.doc_is_active →
      (liveItems (if (LiveWorkspace.toggle env S1
            (S1.live_is_active && S1.doc_is_active)).live_is_active = true
          then Model.generate_live env (LiveWorkspace.toggle env S1
            (S1.live_is_active && S1.doc_is_active))
          else LiveWorkspace.toggle env S1
            (S1.live_is_active && S1.doc_is_active))).length =
        (liveItems s).length +
          (if s.live_is_active = true ∧ s.doc_is_active = true then 1 else 0) ∧
      (if (LiveWorkspace.toggle env S1
            (S1.live_is_active && S1.doc_is_active)).live_is_active = true
          then Model.generate_live env (LiveWorkspace.toggle env S1
            (S1.live_is_active && S1.doc_is_active))
          else LiveWorkspace.toggle env S1
            (S1.live_is_active && S1.doc_is_active)).live_result =
        S1.live_result ∧
      (if (LiveWorkspace.toggle env S1
            (S1.live_is_active && S1.doc_is_active)).live_is_active = true
          then Model.generate_live env (LiveWorkspace.toggle env S1
            (S1.live_is_active && S1.doc_is_active))
          else LiveWorkspace.toggle env S1
            (S1.live_is_active && S1.doc_is_active)).live_is_active =
        (s.live_is_active && s.doc_is_active) := by
    intro S1 hci hla hls hda
    by_cases hA : s.live_is_active = true
    · by_cases hD : s.doc_is_active = true
      · have hcond : (S1.live_is_active && S1.doc_is_active) = true := by
          rw [hla, hda, hA, hD]
          rfl
        rw [hcond, toggle_true_noop env S1 (by rw [hla, hA])]
        rw [if_pos (by rw [hla, hA])]
        obtain ⟨w, jb, hw, heq⟩ := generate_live_eq env S1 (by rw [hls]; exact hstr)
        refine ⟨?_, ?_, ?_⟩
        · rw [liveItems_length_append_live S1 (Model.generate_live env S1) w
            (by rw [heq]) hw]
          rw [liveItems_congr s S1 hci, if_pos ⟨hA, hD⟩]
        · rw [heq]
          exact (progressReset_fields { S1 with error := "" }).2.2.2.1
        · rw [heq, hA, hD]
          have hpr := (progressReset_fields { S1 with error := "" }).1
          dsimp only at hpr ⊢
          rw [hpr, hla, hA]
          rfl
      · have hD' : s.doc_is_active = false := by simpa using hD
        have hcond : (S1.live_is_active && S1.doc_is_active) = false := by
          rw [hla, hda, hA, hD']
          rfl
        rw [hcond, toggle_false_eq]
        have ht := toggleOff_fields S1
        rw [if_neg (by rw [ht.1]; simp)]
        refine ⟨?_, ?_, ?_⟩
        · rw [liveItems_congr s _ (by rw [ht.2.1, hci]), if_neg]
          · simp
          · rintro ⟨-, hc2⟩
            rw [hD'] at hc2
            cases hc2
        · exact ht.2.2.2.1
        · rw [ht.1, hA, hD']
          rfl
    · have hA' : s.live_is_active = false := by simpa using hA
      have hcond : (S1.live_is_active && S1.doc_is_active) = false := by
        rw [hla, hA']
        rfl
      have hOff : LiveWorkspace.toggleOff S1 = S1 := by
        unfold LiveWorkspace.toggleOff
        rw [if_neg (by rw [hla, hA']; simp)]
      rw [hcond, toggle_false_eq, hOff, if_neg (by rw [hla, hA']; simp)]
      refine ⟨?_, rfl, ?_⟩
      · rw [liveItems_congr s S1 hci, if_neg]
        · simp
        · rintro ⟨hc1, -⟩
          rw [hA'] at hc1
          cases hc1
      · rw [hla, hA']
        rfl
  unfold LiveWorkspace.handle_job_finished
  rw [if_pos hk]
  dsimp only
  cases hr : job.results with
  | nil =>
    dsimp only
    exact main s rfl rfl rfl rfl
  | cons r rest =>
    dsimp only
    have hs := set_result_fields s r job.params.bounds
    have h := main (LiveWorkspace.set_result s r job.params.bounds)
      hs.2.1 hs.2.2.1 hs.2.2.2.2.1 hs.2.2.2.2.2.1
    refine ⟨h.1, ?_, h.2.2⟩
    rw [h.2.1, hs.1]

/-- C4: when a live-preview job finishes, its first result (if any) becomes
the session's current result, and a new live request reaches the client if
and only if the session is still toggled active and the host document is
still valid; in particular, toggling the live loop active (one submission)
and then inactive before any live job finishes means the later completion
submits no second live request. -/
theorem C4_live_loop (env : Env) (s : ModelState) (job : Job)
    (hstr : s.live_strength ≤ 1) :
    (job.kind = JobKind.live_preview →
      (liveItems (LiveWorkspace.handle_job_finished env s job)).length =
        (liveItems s).length +
          (if s.live_is_active = true ∧ s.doc_is_active = true then 1 else 0) ∧
      (LiveWorkspace.handle_job_finished env s job).live_result =
        (match job.results with
         | r :: _ => some (r, job.params.bounds)
         | [] => s.live_result)) ∧
    (s.live_is_active = false →
      (liveItems (LiveWorkspace.toggle env s true)).length =
        (liveItems s).length + 1 ∧
      (LiveWorkspace.toggle env
          (LiveWorkspace.toggle env s true) false).live_is_active = false ∧
      (liveItems (LiveWorkspace.toggle env
          (LiveWorkspace.toggle env s true) false)).length =
        (liveItems s).length + 1 ∧
      (liveItems (LiveWorkspace.handle_job_finished env
          (LiveWorkspace.toggle env (LiveWorkspace.toggle env s true) false)
          job)).length = (liveItems s).length + 1) := by
  constructor
  · intro hk
    have h := handle_job_finished_live env s job hstr hk
    exact ⟨h.1, h.2.1⟩
  · intro hA
    obtain ⟨w, jb, hw, heq⟩ :=
      generate_live_eq env { s with live_is_active := true } hstr
    have h1eq : LiveWorkspace.toggle env s true =
        Model.generate_live env { s with live_is_active := true } :=
      toggle_true_eq env s hA
    have hlen1 : (liveItems (LiveWorkspace.toggle env s true)).length =
        (liveItems s).length + 1 := by
      rw [h1eq]
      exact liveItems_length_append_live s _ w (by rw [heq]) hw
    have hs1 : (LiveWorkspace.toggle env s true).live_is_active = true := by
      rw [h1eq, heq]
      exact (progressReset_fields _).1
    have hs1str : (LiveWorkspace.toggle env s true).live_strength =
        s.live_strength := by
      rw [h1eq, heq]
      exact (progressReset_fields _).2.2.1
    have h2eq : LiveWorkspace.toggle env (LiveWorkspace.toggle env s true) false =
        LiveWorkspace.toggleOff (LiveWorkspace.toggle env s true) :=
      toggle_false_eq env _
    have ht := toggleOff_fields (LiveWorkspace.toggle env s true)
    have hs2act : (LiveWorkspace.toggle env
        (LiveWorkspace.toggle env s true) false).live_is_active = false := by
      rw [h2eq]
      exact ht.1
    have hlen2 : (liveItems (LiveWorkspace.toggle env
        (LiveWorkspace.toggle env s true) false)).length =
        (liveItems s).length + 1 := by
      rw [h2eq, liveItems_congr (LiveWorkspace.toggle env s true) _ ht.2.1]
      exact hlen1
    refine ⟨hlen1, hs2act, hlen2, ?_⟩
    by_cases hk : job.kind = JobKind.live_preview
    · have hstr2 : (LiveWorkspace.toggle env
          (LiveWorkspace.toggle env s true) false).live_strength ≤ 1 := by
        rw [h2eq, ht.2.2.1, hs1str]
        exact hstr
      have h := (handle_job_finished_live env _ job hstr2 hk).1
      rw [h, hs2act, if_neg (by rintro ⟨hc, -⟩; cases hc), Nat.add_zero, hlen2]
    · unfold LiveWorkspace.handle_job_finished
      rw [if_neg hk]
      exact hlen2

/-- Concrete live-loop trace: toggling on submits one live request; toggling
off and then completing the pending live job submits no second one. -/
theorem C4_live_loop_witness :
    (liveItems (LiveWorkspace.toggle exEnv exState true)).length =
      (liveItems exState).length + 1 ∧
    (liveItems (LiveWorkspace.handle_job_finished exEnv
        (LiveWorkspace.toggle exEnv (LiveWorkspace.toggle exEnv exState true)
          false) exJobLive)).length = (liveItems exState).length + 1 := by
  have h := (C4_live_loop exEnv exState exJobLive (by decide)).2 (by decide)
  exact ⟨h.1, h.2.2.2⟩

/-- C9: reporting an error stores the message as the single retained error
(replacing any previous one) and forces the live session inactive, so the
live loop cannot resubmit; and a generation operation's outcome is
independent of any stale error, which it clears before dispatch. -/
theorem C9_error_policy (env : Env) (s : ModelState) (m : String)
    (hok : env.colorOk = true) :
    (Model.report_error s m).error = m ∧
    (Model.report_error s m).live_is_active = false ∧
    Model.generate env s = Model.generate env { s with error := "" } := by
  refine ⟨?_, ?_, ?_⟩
  · have he := (toggleOff_fields { s with error := m }).2.2.2.2.2.1
    unfold Model.report_error
    rw [he]
  · exact (toggleOff_fields { s with error := m }).1
  · have hcond : ¬ (env.colorOk = false ∧ env.colorMsg ≠ "") := by
      rw [hok]
      rintro ⟨hc, -⟩
      cases hc
    unfold Model.generate
    rw [if_neg hcond]
    rw [if_neg hcond]
    simp only [clear_error_eq]

/-- Concrete error report and stale-error clearing. -/
theorem C9_error_policy_witness :
    (Model.report_error exState "boom").error = "boom" ∧
    (Model.report_error exState "boom").live_is_active = false ∧
    Model.generate exEnv exState = Model.generate exEnv { exState with error := "" } :=
  C9_error_policy exEnv exState "boom" rfl

/-- C10: switching the workspace away while the live workspace is current
deactivates the live session (active flag forced false, recording forced off,
given the session invariant that recording implies active) before the new
workspace value takes effect; from any other workspace the live session's
active flag is untouched. -/
theorem C10_workspace_switch (env : Env) (s : ModelState) (w : Workspace)
    (hinv : s.live_is_recording = true → s.live_is_active = true) :
    (Model.set_workspace env s w).workspace = w ∧
    (s.workspace = Workspace.live →
      (Model.set_workspace env s w).live_is_active = false ∧
      (Model.set_workspace env s w).live_is_recording = false) ∧
    (s.workspace ≠ Workspace.live →
      (Model.set_workspace env s w).live_is_active = s.live_is_active) := by
  unfold Model.set_workspace
  by_cases hws : s.workspace = Workspace.live
  · rw [if_pos hws]
    dsimp only
    refine ⟨rfl, fun _ => ⟨?_, ?_⟩, fun hn => absurd hws hn⟩
    · rw [toggle_false_eq]
      exact (toggleOff_fields s).1
    · rw [toggle_false_eq]
      unfold LiveWorkspace.toggleOff
      cases ha : s.live_is_active with
      | true =>
        rw [if_pos (rfl : (true : Bool) = true)]
        exact (toggleRecordOffInner_fields { s with live_is_active := false }).1
      | false =>
        rw [if_neg (by simp)]
        cases hr : s.live_is_recording with
        | false => rfl
        | true => exact absurd (hinv hr) (by rw [ha]; simp)
  · rw [if_neg hws]
    exact ⟨rfl, fun hc => absurd hc hws, fun _ => rfl⟩

/-- Concrete workspace switch away from an active, recording live session. -/
theorem C10_workspace_switch_witness :
    (Model.set_workspace exEnv exStateLiveWs Workspace.generation).workspace =
      Workspace.generation ∧
    (Model.set_workspace exEnv exStateLiveWs
      Workspace.generation).live_is_active = false ∧
    (Model.set_workspace exEnv exStateLiveWs
      Workspace.generation).live_is_recording = false := by
  have h := C10_workspace_switch exEnv exStateLiveWs Workspace.generation
    (by decide)
  have h2 := h.2.1 (by decide)
  exact ⟨h.1, h2.1, h2.2⟩

/-- C5: an event whose job id is not tracked raises no exception, mutates no
model or job state, and is observable only through a log entry. -/
theorem C5_unknown_job (env : Env) (s : ModelState) (message : ClientMessage)
    (h : jobsFind s.jobs message.job_id = none) :
    Model.handle_message env s message =
      .ok { s with log := s.log ++
        ["Received message for unknown job: " ++ message.job_id] } := by
  unfold Model.handle_message
  rw [h]

/-- Concrete unknown-id event against an empty job collection. -/
theorem C5_unknown_job_witness :
    Model.handle_message exEnv exState exMsgUnknown =
      .ok { exState with log := exState.log ++
        ["Received message for unknown job: " ++ exMsgUnknown.job_id] } :=
  C5_unknown_job exEnv exState exMsgUnknown rfl

theorem handle_job_finished_other (env : Env) (t : ModelState) (j : Job)
    (h : ¬ j.kind = JobKind.live_preview) :
    LiveWorkspace.handle_job_finished env t j = t := by
  unfold LiveWorkspace.handle_job_finished
  rw [if_neg h]

theorem jobsFind_update (id : String) (f : Job → Job)
    (hf : ∀ k, (f k).id = k.id) :
    ∀ (jobs : List Job) (j : Job), jobsFind jobs id = some j →
      jobsFind (jobsUpdate jobs id f) id = some (f j) := by
  intro jobs
  induction jobs with
  | nil => intro j h; simp [jobsFind] at h
  | cons k rest ih =>
    intro j h
    unfold jobsFind at h ⊢
    unfold jobsUpdate
    simp only [List.map_cons]
    by_cases hk : k.id = id
    · rw [List.find?_cons_of_pos _ (by simp [hk])] at h
      have hkj : k = j := by simpa using h
      subst hkj
      rw [if_pos hk, List.find?_cons_of_pos _ (by simp [hf, hk])]
    · rw [List.find?_cons_of_neg _ (by simp [hk])] at h
      rw [if_neg hk, List.find?_cons_of_neg _ (by simp [hk])]
      exact ih j h

/-- C6: a finished event carrying no images still marks a known job finished
(emitting the job-finished signal) and still runs kind-specific
post-processing without raising on the empty result sequence — the
control-layer branch handles zero results — except for upscaling jobs, where
zero results fails an assertion. -/
theorem C6_finished_no_images (env : Env) (s : ModelState)
    (message : ClientMessage) (job : Job)
    (hfind : jobsFind s.jobs message.job_id = some job)
    (hev : message.event = ClientEvent.finished)
    (himg : message.images = [])
    (hres : job.results = []) :
    (job.kind = JobKind.upscaling →
      ∃ e, Model.handle_message env s message = .error e) ∧
    (job.kind ≠ JobKind.upscaling →
      (job.kind = JobKind.control_layer → job.control ≠ none) →
      ∃ s2, Model.handle_message env s message = .ok s2 ∧
        s2.job_finished_signals = s.job_finished_signals ++ [message.job_id] ∧
        (job.kind = JobKind.diffusion →
          jobsFind s2.jobs message.job_id =
            some { job with state := JobState.finished })) := by
  have hni : ¬ (message.images ≠ []) := by rw [himg]; simp
  constructor
  · intro hk
    unfold Model.handle_message
    rw [hfind, hev]
    dsimp only
    rw [if_neg hni, if_neg hni]
    rw [if_neg (by rw [hk]; intro hc; cases hc), if_pos hk]
    unfold Model.add_upscale_layer
    rw [if_pos hk, if_neg (by rw [hres]; simp)]
    exact ⟨_, rfl⟩
  · intro hnk hctl
    cases hk : job.kind with
    | upscaling => exact absurd hk hnk
    | diffusion =>
      unfold Model.handle_message
      rw [hfind, hev]
      dsimp only
      rw [if_neg hni, if_neg hni]
      rw [if_neg (by rw [hk]; intro hc; cases hc)]
      rw [if_neg (by rw [hk]; intro hc; cases hc)]
      dsimp only
      rw [handle_job_finished_other env _ { job with state := JobState.finished }
        (by simp [hk])]
      rw [if_neg (show ¬ job.kind ≠ JobKind.diffusion from by simp [hk])]
      refine ⟨_, rfl, ?_, ?_⟩
      · split <;> rfl
      · intro hd
        have hbase := jobsFind_update message.job_id
          (fun j => { j with state := JobState.finished }) (fun k => rfl)
          s.jobs job hfind
        split <;> simpa [hk] using hbase
    | control_layer =>
      obtain ⟨c, hc⟩ := Option.ne_none_iff_exists'.mp (hctl hk)
      unfold Model.handle_message
      rw [hfind, hev]
      dsimp only
      rw [if_neg hni, if_neg hni]
      rw [if_pos hk]
      unfold Model.add_control_layer
      rw [hc]
      dsimp only
      rw [if_pos hk]
      by_cases hp : c.mode = ControlMode.pose ∧ message.result ≠ none
      · rw [if_pos hp]
        dsimp only [docInsertLayer]
        rw [handle_job_finished_other env _ _ (by simp [hk])]
        rw [if_pos (show job.kind ≠ JobKind.diffusion from by simp [hk])]
        refine ⟨_, rfl, rfl, ?_⟩
        intro hd
        exact absurd hd (by decide)
      · rw [if_neg hp, if_neg (by rw [hres]; simp)]
        dsimp only
        rw [handle_job_finished_other env _ _ (by simp [hk])]
        rw [if_pos (show job.kind ≠ JobKind.diffusion from by simp [hk])]
        refine ⟨_, rfl, rfl, ?_⟩
        intro hd
        exact absurd hd (by decide)
    | live_preview =>
      unfold Model.handle_message
      rw [hfind, hev]
      dsimp only
      rw [if_neg hni, if_neg hni]
      rw [if_neg (by rw [hk]; intro hc; cases hc)]
      rw [if_neg (by rw [hk]; intro hc; cases hc)]
      dsimp only
      refine ⟨_, rfl, ?_, ?_⟩
      · rw [if_pos (show job.kind ≠ JobKind.diffusion from by simp [hk])]
        exact handle_job_finished_signals env _ _
      · intro hd
        exact absurd hd (by decide)

/-- Concrete finished event with no images for a tracked diffusion job:
handled without error, job-finished signal emitted, job marked finished. -/
theorem C6_finished_no_images_witness :
    ∃ s2, Model.handle_message exEnv exStateDiff exMsgFin = .ok s2 ∧
      s2.job_finished_signals =
        exStateDiff.job_finished_signals ++ [exMsgFin.job_id] ∧
      (exJobDiff.kind = JobKind.diffusion →
        jobsFind s2.jobs exMsgFin.job_id =
          some { exJobDiff with state := JobState.finished }) := by
  have h := (C6_finished_no_images exEnv exStateDiff exMsgFin exJobDiff
    (by decide) rfl rfl rfl).2 (by decide) (by intro hc; cases hc)
  obtain ⟨s2, h1, h2, h3⟩ := h
  exact ⟨s2, h1, h2, fun _ => h3 rfl⟩
